import Mathlib

/-!
Shallow embedding of `main_robot.py` and `main_pico.py` from the
`ble_pololu_robot` repository (a BLE-to-UART bridge on a Pico W forwarding
commands to a Pololu 3pi+ 2040 line-following robot), together with proofs
about the embedded operations.

Python strings are modelled as Lean `String` (a wrapper around `List Char`);
Python (unbounded) integers as `Int`, non-negative sensor readings as `Nat`.
Python `//` on non-negative operands is `Nat` division.  A Python exception
is an `Except String` error value carrying the exception description.
Hardware peripherals (motors, display, LEDs, buzzer) are modelled by the
state they carry that the program later reads: the motor speed pair
(`motors._left_speed`, `motors._right_speed`) is part of the robot state,
while the display, LEDs and buzzer are write-only and omitted.  Sensor
sampling (`bump_sensors.read`, `random.randint`) and hardware faults during
calibration are supplied by an explicit environment argument.
-/

namespace BlePololu

/-! ### Python string primitives (on ASCII command text) -/

/-- Characters stripped by Python `str.strip()` for the ASCII command
alphabet this protocol uses. -/
def isWs (c : Char) : Bool := c = ' ' || c = '\t' || c = '\n' || c = '\r'

/-- `str.strip()` on the underlying character list. -/
def stripChars (l : List Char) : List Char :=
  ((l.dropWhile isWs).reverse.dropWhile isWs).reverse

/-- Python `str.strip()`. -/
def pyStrip (s : String) : String := String.mk (stripChars s.data)

/-- Python `str.upper()` (ASCII letters). -/
def pyUpper (s : String) : String := String.mk (s.data.map Char.toUpper)

/-- Helper for `pyWords`: scans from the right, returning the completed
words to the right and the (possibly empty) word still growing at the left
edge. -/
def pyWordsR : List Char → List (List Char) × List Char
  | [] => ([], [])
  | c :: rest =>
    let (ws, cur) := pyWordsR rest
    if isWs c then (if cur = [] then (ws, []) else (cur :: ws, [])) else (ws, c :: cur)

/-- Python `str.split()` with no argument: split on whitespace runs,
discarding empty fragments. -/
def pyWords (l : List Char) : List String :=
  let (ws, cur) := pyWordsR l
  ((if cur = [] then ws else cur :: ws).map String.mk)

/-- Python `str(bool)`. -/
def pyBoolStr (b : Bool) : String := if b then "True" else "False"

/-- Value of a non-empty all-digit string, Python `int()` digit part. -/
def digitsVal (l : List Char) : Option Nat :=
  if l ≠ [] ∧ l.all Char.isDigit then
    some (l.foldl (fun a c => a * 10 + (c.toNat - 48)) 0)
  else none

/-- Python `int(str)` restricted to ASCII decimal literals: optional sign,
surrounding whitespace tolerated; `none` models `ValueError`. -/
def pyInt (s : String) : Option Int :=
  match stripChars s.data with
  | '-' :: rest => (digitsVal rest).map (fun n => -(n : Int))
  | '+' :: rest => (digitsVal rest).map (fun n => (n : Int))
  | l => (digitsVal l).map (fun n => (n : Int))

/-! ### Robot state (`main_robot.py` globals and motor state) -/

/-- The three values of `current_mode` (`MODE_MANUAL = 0`,
`MODE_LINE_FOLLOWING = 1`, `MODE_STOPPED = 2`). -/
inductive Mode where
  | manual
  | lineFollowing
  | stopped
deriving DecidableEq, Repr

/-- The mutable globals of `main_robot.py` that the program later reads,
plus the motor speed pair held by the `motors` object
(read back by `check_collisions` as `motors._left_speed` /
`motors._right_speed`).  `motors.off()` sets the pair to `(0, 0)`. -/
structure RobotState where
  mode : Mode
  lineCalibrated : Bool
  currentSpeed : Int
  p : Int
  lastP : Int
  collisionDetected : Bool
  leftSpeed : Int
  rightSpeed : Int
deriving DecidableEq, Repr

/-- Initial global state: `current_mode = MODE_STOPPED`,
`line_calibrated = False`, `current_speed = SPEED_LEVEL_1 = 1000`,
`p = last_p = 0`, `collision_detected = False`, motors off. -/
def initState : RobotState :=
  { mode := .stopped
    lineCalibrated := false
    currentSpeed := 1000
    p := 0
    lastP := 0
    collisionDetected := false
    leftSpeed := 0
    rightSpeed := 0 }

/-- Outcome of the hardware calibration sequence in
`calibrate_line_sensors`: success, or an exception (with description)
raised during the first, second or third sweep of `line_sensors.calibrate()`
calls.  The sweep number fixes the motor speeds in force when the
exception aborts the `try` block. -/
inductive CalibOutcome where
  | ok
  | fail1 (msg : String)
  | fail2 (msg : String)
  | fail3 (msg : String)
deriving DecidableEq, Repr

/-- Environment sampled by a dispatch step: the `random.randint(80, 100)`
battery figure and the bump-sensor readout used by `cmd_status`, and the
outcome of the hardware calibration sweeps if `calibrate_line_sensors`
runs. -/
structure Env where
  battery : Nat
  leftBump : Bool
  rightBump : Bool
  calib : CalibOutcome
deriving DecidableEq, Repr

/-! ### Command handlers (`main_robot.py` lines 55–228) -/

/-- `cmd_forward` (lines 55–63). -/
def cmdForward (s : RobotState) : String × RobotState :=
  if !s.collisionDetected then
    ("MOVING:FORWARD at speed " ++ toString s.currentSpeed,
     { s with mode := .manual, leftSpeed := s.currentSpeed, rightSpeed := s.currentSpeed })
  else
    ("ERROR:COLLISION_DETECTED", s)

/-- `cmd_backward` (lines 65–70). -/
def cmdBackward (s : RobotState) : String × RobotState :=
  ("MOVING:BACKWARD at speed " ++ toString s.currentSpeed,
   { s with mode := .manual, leftSpeed := -s.currentSpeed, rightSpeed := -s.currentSpeed })

/-- `cmd_left` (lines 72–77). -/
def cmdLeft (s : RobotState) : String × RobotState :=
  ("TURNING:LEFT at speed " ++ toString s.currentSpeed,
   { s with mode := .manual, leftSpeed := -s.currentSpeed, rightSpeed := s.currentSpeed })

/-- `cmd_right` (lines 79–84). -/
def cmdRight (s : RobotState) : String × RobotState :=
  ("TURNING:RIGHT at speed " ++ toString s.currentSpeed,
   { s with mode := .manual, leftSpeed := s.currentSpeed, rightSpeed := -s.currentSpeed })

/-- `cmd_stop` (lines 86–100): stop the motors, then auto-resume line
following after a pause if line following was the previous mode. -/
def cmdStop (s : RobotState) : String × RobotState :=
  let prev := s.mode
  let s1 := { s with mode := .stopped, leftSpeed := 0, rightSpeed := 0 }
  if prev = .lineFollowing then
    ("STOPPED (resuming line following)", { s1 with mode := .lineFollowing })
  else
    ("STOPPED", s1)

/-- `cmd_speed` (lines 102–118). -/
def cmdSpeed (level : String) (s : RobotState) : String × RobotState :=
  match pyInt level with
  | none => ("ERROR:INVALID_SPEED_LEVEL (use 1-3)", s)
  | some n =>
    if n = 1 then
      ("SPEED_SET:1 (1000)", { s with currentSpeed := 1000 })
    else if n = 2 then
      ("SPEED_SET:2 (1250)", { s with currentSpeed := 1250 })
    else if n = 3 then
      ("SPEED_SET:3 (1500)", { s with currentSpeed := 1500 })
    else
      ("ERROR:INVALID_SPEED_LEVEL (use 1-3)", s)

/-- Mode rendering used by `cmd_status` (lines 127–131). -/
def modeText (m : Mode) : String :=
  match m with
  | .manual => "MANUAL"
  | .lineFollowing => "LINE_FOLLOWING"
  | .stopped => "STOPPED"

/-- `cmd_status` (lines 120–144): builds the status string from the
globals and a fresh bump-sensor readout; mutates nothing. -/
def cmdStatus (env : Env) (s : RobotState) : String × RobotState :=
  ("STATUS:OK," ++
   "BATTERY:" ++ toString env.battery ++ "%," ++
   "MODE:" ++ modeText s.mode ++ "," ++
   "SPEED:" ++ toString s.currentSpeed ++ "," ++
   "CALIBRATED:" ++ pyBoolStr s.lineCalibrated ++ "," ++
   "COLLISION:" ++ pyBoolStr s.collisionDetected ++ "," ++
   "LEFT_BUMP:" ++ pyBoolStr env.leftBump ++ "," ++
   "RIGHT_BUMP:" ++ pyBoolStr env.rightBump, s)

/-- `calibrate_line_sensors` (lines 169–225): forces STOPPED mode and
motors off, runs three calibration sweeps inside a `try`.  On success sets
`line_calibrated = True` and auto-promotes to line following (motors left
off).  On an exception sets `line_calibrated = False` and returns the
fault description; the `except` branch does not touch the motors, so they
keep the speeds of the sweep that was running
(`calibration_speed = 200`). -/
def calibrateLineSensors (outcome : CalibOutcome) (s : RobotState) :
    String × RobotState :=
  let s0 := { s with mode := .stopped, leftSpeed := 0, rightSpeed := 0 }
  match outcome with
  | .ok =>
    ("LINE_SENSORS:CALIBRATED_AND_FOLLOWING",
     { s0 with lineCalibrated := true, mode := .lineFollowing })
  | .fail1 msg =>
    ("ERROR:CALIBRATION_FAILED (" ++ msg ++ ")",
     { s0 with lineCalibrated := false, leftSpeed := 200, rightSpeed := -200 })
  | .fail2 msg =>
    ("ERROR:CALIBRATION_FAILED (" ++ msg ++ ")",
     { s0 with lineCalibrated := false, leftSpeed := -200, rightSpeed := 200 })
  | .fail3 msg =>
    ("ERROR:CALIBRATION_FAILED (" ++ msg ++ ")",
     { s0 with lineCalibrated := false, leftSpeed := 200, rightSpeed := -200 })

/-- `cmd_line_follow` (lines 146–167); `param` defaults to `""`. -/
def cmdLineFollow (env : Env) (param : String) (s : RobotState) :
    String × RobotState :=
  let pu := pyUpper param
  if pu = "START" then
    if s.lineCalibrated then
      ("LINE_FOLLOWING:STARTED", { s with mode := .lineFollowing })
    else
      ("ERROR:NOT_CALIBRATED", s)
  else if pu = "STOP" then
    ("LINE_FOLLOWING:STOPPED", { s with mode := .stopped, leftSpeed := 0, rightSpeed := 0 })
  else if pu = "CALIBRATE" then
    calibrateLineSensors env.calib s
  else
    if s.mode = .lineFollowing then
      ("LINE_FOLLOWING:ACTIVE", s)
    else
      ("LINE_FOLLOWING:INACTIVE", s)

/-- `cmd_heartbeat` (lines 227–228). -/
def cmdHeartbeat (val : String) (s : RobotState) : String × RobotState :=
  ("HEARTBEAT_ACK:" ++ val, s)

/-! ### Command dispatch (`process_command`, lines 264–296)

The `COMMANDS` dict maps `"PING"` to a static string and every other key
to a handler function.  `process_command` calls a handler with `parts[1]`
when the split produced more than one part, and with no argument
otherwise.  Passing a parameter to a zero-argument handler, or omitting
the parameter of `cmd_speed` / `cmd_heartbeat`, raises a `TypeError` at
the call; an empty `parts` list makes `parts[0]` raise an `IndexError`.
Neither is guarded, so `process_command` propagates these as `.error`. -/

/-- Arity guard: call a zero-argument handler, raising the `TypeError`
that Python raises when `process_command` passes it `parts[1]`. -/
def callNoArg (h : RobotState → String × RobotState) (name : String)
    (s : RobotState) (param : Option String) :
    Except String (String × RobotState) :=
  match param with
  | none => .ok (h s)
  | some _ => .error ("TypeError: " ++ name ++ "() takes 0 positional arguments but 1 was given")

/-- Arity guard: call a one-argument handler, raising the `TypeError`
that Python raises when `process_command` calls it with no argument. -/
def callOneArg (h : String → RobotState → String × RobotState) (name : String)
    (s : RobotState) (param : Option String) :
    Except String (String × RobotState) :=
  match param with
  | some p => .ok (h p s)
  | none => .error ("TypeError: " ++ name ++ "() missing 1 required positional argument")

/-- Dispatch on `base_cmd` (the `COMMANDS` dict lookup plus the
`callable` test and the parameter-count cases of lines 279–291). -/
def dispatch (env : Env) (s : RobotState) (base : String)
    (param : Option String) : Except String (String × RobotState) :=
  if base = "PING" then .ok ("PONG", s)
  else if base = "STATUS" then callNoArg (cmdStatus env) "cmd_status" s param
  else if base = "FORWARD" then callNoArg cmdForward "cmd_forward" s param
  else if base = "BACKWARD" then callNoArg cmdBackward "cmd_backward" s param
  else if base = "LEFT" then callNoArg cmdLeft "cmd_left" s param
  else if base = "RIGHT" then callNoArg cmdRight "cmd_right" s param
  else if base = "STOP" then callNoArg cmdStop "cmd_stop" s param
  else if base = "SPEED" then callOneArg cmdSpeed "cmd_speed" s param
  else if base = "LINE" then .ok (cmdLineFollow env (param.getD "") s)
  else if base = "HEARTBEAT" then callOneArg cmdHeartbeat "cmd_heartbeat" s param
  else .ok ("ERROR:UNKNOWN_COMMAND", s)

/-- `process_command` (lines 264–296): strip and uppercase the text, split
it on whitespace, dispatch on the first part passing the second (if any)
as the handler argument.  An `.error` value is an uncaught Python
exception escaping `process_command`. -/
def processCommand (env : Env) (s : RobotState) (command : String) :
    Except String (String × RobotState) :=
  match pyWords (pyUpper (pyStrip command)).data with
  | [] => .error "IndexError: list index out of range"
  | base :: rest => dispatch env s base rest.head?

/-! ### Collision handling (`check_collisions`, lines 298–322) -/

/-- `check_collisions`: sample the bump sensors; on a press while the
latch is clear, set the latch, and if the robot is in a non-stopped mode
moving forward on both wheels, force motors off and STOPPED mode
(returning `True`); when both sensors read released, clear the latch.
The returned `Bool` is the function's return value. -/
def checkCollisions (leftBump rightBump : Bool) (s : RobotState) :
    RobotState × Bool :=
  if leftBump || rightBump then
    if !s.collisionDetected then
      let s1 := { s with collisionDetected := true }
      if s1.mode ≠ .stopped ∧ 0 < s1.leftSpeed ∧ 0 < s1.rightSpeed then
        ({ s1 with leftSpeed := 0, rightSpeed := 0, mode := .stopped }, true)
      else
        (s1, false)
    else
      (s, false)
  else
    if s.collisionDetected then
      ({ s with collisionDetected := false }, false)
    else
      (s, false)

/-! ### Line following (`follow_line`, lines 324–358) -/

/-- One calibrated readout of the five line sensors (non-negative
integers; index 0 is the leftmost sensor). -/
structure Readings where
  r0 : Nat
  r1 : Nat
  r2 : Nat
  r3 : Nat
  r4 : Nat
deriving DecidableEq, Repr

/-- Python `//` on non-negative operands, with `ZeroDivisionError` as the
error case. -/
def pyDivNat (a b : Nat) : Except String Nat :=
  if b = 0 then .error "ZeroDivisionError" else .ok (a / b)

/-- The position estimate `l` computed by `follow_line` (lines 333–343):
if the three central readings are all below 700 the estimate snaps to the
side the previous error `p` favoured; otherwise it is the weighted
centroid, where the `try`/`except ZeroDivisionError` substitutes 2000
when `sum(line)` — the sum of all five readings — is zero. -/
def lineEstimate (v : Readings) (p : Int) : Nat :=
  if v.r1 < 700 ∧ v.r2 < 700 ∧ v.r3 < 700 then
    if p < 0 then 0 else 4000
  else
    match pyDivNat (1000 * v.r1 + 2000 * v.r2 + 3000 * v.r3 + 4000 * v.r4)
        (v.r0 + v.r1 + v.r2 + v.r3 + v.r4) with
    | .ok l => l
    | .error _ => 2000

/-- `follow_line` (lines 324–358): one control iteration over a fresh
readout `v`.  Error `p = l - 2000`, derivative `d = p - last_p`, update
`last_p`, PID output `p*15 + d*300`, clamp each wheel between 0 and
`current_speed`, and command the motors. -/
def followLine (v : Readings) (s : RobotState) : RobotState :=
  let l := lineEstimate v s.p
  let p : Int := (l : Int) - 2000
  let d : Int := p - s.lastP
  let pid : Int := p * 15 + d * 300
  let maxSpeed := s.currentSpeed
  let left := max 0 (min maxSpeed (maxSpeed + pid))
  let right := max 0 (min maxSpeed (maxSpeed - pid))
  { s with p := p, lastP := p, leftSpeed := left, rightSpeed := right }

/-- The position estimate as claim C2 words it: the same weighted centroid
but divided by `v1 + v2 + v3 + v4` only (the first reading omitted from
the divisor), with the same 2000 fallback on a zero divisor.  Written
from the spec's sentence, for comparison with `lineEstimate`. -/
def lineEstimateClaimC2 (v : Readings) (p : Int) : Nat :=
  if v.r1 < 700 ∧ v.r2 < 700 ∧ v.r3 < 700 then
    if p < 0 then 0 else 4000
  else
    match pyDivNat (1000 * v.r1 + 2000 * v.r2 + 3000 * v.r3 + 4000 * v.r4)
        (v.r1 + v.r2 + v.r3 + v.r4) with
    | .ok l => l
    | .error _ => 2000

/-- The line-following step as claim C2 words it, differing from
`followLine` only in the centroid divisor. -/
def followLineClaimC2 (v : Readings) (s : RobotState) : RobotState :=
  let l := lineEstimateClaimC2 v s.p
  let p : Int := (l : Int) - 2000
  let d : Int := p - s.lastP
  let pid : Int := p * 15 + d * 300
  let maxSpeed := s.currentSpeed
  let left := max 0 (min maxSpeed (maxSpeed + pid))
  let right := max 0 (min maxSpeed (maxSpeed - pid))
  { s with p := p, lastP := p, leftSpeed := left, rightSpeed := right }

/-! ### Startup (`main`, lines 361–399)

Before the main loop, `main` calibrates the bump sensors, drains the
UART, blinks the LED, and then calls `calibrate_line_sensors()`; of these
only the calibration call touches the modelled state. -/

/-- The robot state with which the first main-loop iteration starts,
given the outcome of the boot-time calibration. -/
def bootState (outcome : CalibOutcome) : RobotState :=
  (calibrateLineSensors outcome initState).2

/-! ### UART frame reassembly (`main`, lines 404–433)

Each loop iteration appends the newly read bytes to `rx_buffer`; when the
buffer holds a newline it is split on `'\n'`, every piece except the last
is a complete frame (newline stripped by the split), and the last piece —
the trailing partial fragment — becomes the new buffer. -/

/-- Prepend `x` to the first element of a split-list (the way a split of
`x ++ l` continues a split of `l` whose head fragment is open on the
left). -/
def joinHead (x : List Char) : List (List Char) → List (List Char)
  | [] => [x]
  | h :: t => (x ++ h) :: t

/-- Python `str.split('\n')` on the underlying character list; always
returns at least one (possibly empty) fragment. -/
def pySplitNl : List Char → List (List Char)
  | [] => [[]]
  | c :: rest =>
    if c = '\n' then [] :: pySplitNl rest
    else joinHead [c] (pySplitNl rest)

/-- One buffer-ingest step of the main loop (lines 416–430): append the
new data to the buffer; if the result holds a newline, emit all complete
frames and keep the trailing fragment, otherwise just keep buffering. -/
def uartIngest (buf data : List Char) : List (List Char) × List Char :=
  let b := buf ++ data
  if '\n' ∈ b then
    ((pySplitNl b).dropLast, (pySplitNl b).getLastD [])
  else
    ([], b)

/-- Feed a sequence of received chunks through `uartIngest` one at a time,
accumulating the extracted frames in order. -/
def ingestAll (buf : List Char) : List (List Char) → List (List Char) × List Char
  | [] => ([], buf)
  | d :: ds =>
    let fb := uartIngest buf d
    let rest := ingestAll fb.2 ds
    (fb.1 ++ rest.1, rest.2)

/-- The command loop over the extracted frames (lines 423–427): each
non-blank frame is stripped, dispatched, and its response written back.
A frame whose dispatch raises aborts the `try` block: the responses
already written stay sent, no further frame is processed, and the flag
records that the `except` handler will clear the buffer. -/
def runCmds (env : Env) : RobotState → List (List Char) →
    RobotState × List String × Bool
  | s, [] => (s, [], false)
  | s, f :: fs =>
    if stripChars f = [] then runCmds env s fs
    else
      match processCommand env s (String.mk (stripChars f)) with
      | .ok rs =>
        let rest := runCmds env rs.2 fs
        (rest.1, rs.1 :: rest.2.1, rest.2.2)
      | .error _ => (s, [], true)

/-- One full UART-processing step of the main loop (lines 405–433):
ingest the new data, run every complete frame through the dispatcher, and
on an exception clear `rx_buffer` (the `except` branch, line 433).
Returns the robot state, the new buffer and the responses written. -/
def uartStep (env : Env) (s : RobotState) (buf data : List Char) :
    RobotState × List Char × List String :=
  let fb := uartIngest buf data
  let out := runCmds env s fb.1
  (out.1, if out.2.2 then [] else fb.2, out.2.1)

/-! ### The BLE bridge (`main_pico.py`) -/

/-- The bridge state read later by the program: the connection flag and
set (`_connections`, modelled as a list in iteration order), whether
`ble_service` has been assigned (it is, before the main loop runs), the
cached value of the TX characteristic (returned to on-demand reads), and
`last_response`. -/
structure PicoState where
  isConnected : Bool
  connections : List Nat
  bleServiceSet : Bool
  txValue : String
  lastResponse : String
deriving DecidableEq, Repr

/-- `update_tx` (lines 138–145): write the new value to the TX
characteristic and notify every connection (`_notify`, lines 133–136).
Returns the new state and the `(connection, payload)` notifications
sent. -/
def updateTx (v : String) (s : PicoState) : PicoState × List (Nat × String) :=
  ({ s with txValue := v }, s.connections.map (fun c => (c, v)))

/-- `check_for_robot_response` (lines 148–173) on one poll: `chunk` is
what `uart.read()` returned (`none` when no data was available, and an
empty string is falsy, matching `if response:`).  The decoded text is
stripped and recorded in `last_response`; only if a central is connected
and the BLE service exists is it forwarded — prefixed with `"Robot: "` —
through `update_tx`, which both caches it and notifies every connection.
Returns the state, the notifications sent, and the function's return
value. -/
def checkForRobotResponse (chunk : Option String) (s : PicoState) :
    PicoState × List (Nat × String) × Bool :=
  match chunk with
  | none => (s, [], false)
  | some resp =>
    if resp = "" then (s, [], false)
    else
      let rs := pyStrip resp
      let s1 := { s with lastResponse := rs }
      if s1.isConnected && s1.bleServiceSet then
        let out := updateTx ("Robot: " ++ rs) s1
        (out.1, out.2, true)
      else
        (s1, [], true)

/-! ## Theorems about the embedded program -/

/-- Claim C10: the robot node runs the full calibration sequence
automatically at startup, before entering the main loop; after a boot
whose calibration succeeds, the first main-loop iteration starts with
`calibrated = true` and `mode = LINE_FOLLOWING` rather than the initial
STOPPED, uncalibrated state, with no command required. -/
theorem c10_boot_autocalibrates :
    (bootState .ok).lineCalibrated = true ∧
    (bootState .ok).mode = .lineFollowing ∧
    initState.mode = .stopped ∧ initState.lineCalibrated = false := by
  decide

/-- Claim C7: on the all-zero reading vector with a negative previous
error, `follow_line` takes the no-line branch, so the position estimate
is `l = 0` (giving `p = -2000`) and the `l = 2000` zero-divisor fallback
is not involved; moreover whenever the centroid branch (and hence its
division) is reached, the divisor — the sum of all five readings — is
non-zero. -/
theorem c7_no_line_branch_guards_division :
    (∀ s : RobotState, s.p < 0 →
      lineEstimate ⟨0, 0, 0, 0, 0⟩ s.p = 0 ∧
      (followLine ⟨0, 0, 0, 0, 0⟩ s).p = -2000) ∧
    (∀ v : Readings, ¬(v.r1 < 700 ∧ v.r2 < 700 ∧ v.r3 < 700) →
      v.r0 + v.r1 + v.r2 + v.r3 + v.r4 ≠ 0) := by
  constructor
  · intro s hp
    have hl : lineEstimate ⟨0, 0, 0, 0, 0⟩ s.p = 0 := by
      simp [lineEstimate, hp]
    refine ⟨hl, ?_⟩
    simp [followLine, hl]
  · intro v h
    omega

/-- Witness for `c7_no_line_branch_guards_division` at `p = -5` and the
reading vector `⟨0, 800, 0, 0, 0⟩`. -/
theorem c7_no_line_branch_guards_division_witness :
    (lineEstimate ⟨0, 0, 0, 0, 0⟩ ({ initState with p := -5 } : RobotState).p = 0 ∧
      (followLine ⟨0, 0, 0, 0, 0⟩ { initState with p := -5 }).p = -2000) ∧
    (0 : Nat) + 800 + 0 + 0 + 0 ≠ 0 :=
  ⟨c7_no_line_branch_guards_division.1 { initState with p := -5 } (by decide),
   c7_no_line_branch_guards_division.2 ⟨0, 800, 0, 0, 0⟩ (by decide)⟩

/-- Claim C6: dispatching FORWARD while the collision latch is set
returns `ERROR:COLLISION_DETECTED` and leaves the whole robot state
unchanged; dispatching it while the latch is clear switches to MANUAL
mode and sets both wheels to the current speed magnitude. -/
theorem c6_forward_collision_guard :
    ∀ (env : Env) (s : RobotState),
      (s.collisionDetected = true →
        processCommand env s "FORWARD" = .ok ("ERROR:COLLISION_DETECTED", s)) ∧
      (s.collisionDetected = false →
        processCommand env s "FORWARD" =
          .ok ("MOVING:FORWARD at speed " ++ toString s.currentSpeed,
            { s with mode := .manual, leftSpeed := s.currentSpeed,
                     rightSpeed := s.currentSpeed })) := by
  intro env s
  have hd : processCommand env s "FORWARD" = .ok (cmdForward s) := rfl
  constructor
  · intro h
    rw [hd]
    simp [cmdForward, h]
  · intro h
    rw [hd]
    simp [cmdForward, h]

/-- Witness for `c6_forward_collision_guard`: both branches evaluated at
a concrete environment and concrete states. -/
theorem c6_forward_collision_guard_witness :
    processCommand ⟨90, false, false, .ok⟩
        { initState with collisionDetected := true } "FORWARD" =
      .ok ("ERROR:COLLISION_DETECTED", { initState with collisionDetected := true }) ∧
    processCommand ⟨90, false, false, .ok⟩ initState "FORWARD" =
      .ok ("MOVING:FORWARD at speed 1000",
        { initState with mode := .manual, leftSpeed := 1000, rightSpeed := 1000 }) :=
  ⟨(c6_forward_collision_guard ⟨90, false, false, .ok⟩
      { initState with collisionDetected := true }).1 rfl,
   (c6_forward_collision_guard ⟨90, false, false, .ok⟩ initState).2 rfl⟩

/-- Claim C3: from any state with a non-stopped mode, a clear latch and
both wheels moving forward, sampling a bump press stops the motors, sets
STOPPED mode and latches the collision; and sampling both sensors
released while latched clears the latch without restoring the previous
mode (the rest of the state, the mode included, is untouched). -/
theorem c3_collision_latch_transitions :
    ∀ (lb rb : Bool) (s : RobotState),
      ((lb || rb) = true → s.collisionDetected = false → s.mode ≠ .stopped →
        0 < s.leftSpeed → 0 < s.rightSpeed →
        checkCollisions lb rb s =
          ({ s with collisionDetected := true, leftSpeed := 0, rightSpeed := 0,
                    mode := .stopped }, true)) ∧
      (s.collisionDetected = true →
        checkCollisions false false s = ({ s with collisionDetected := false }, false)) := by
  intro lb rb s
  constructor
  · intro hpress hlatch hmode hlft hrgt
    simp [checkCollisions, hpress, hlatch, hmode, hlft, hrgt]
  · intro hlatch
    simp [checkCollisions, hlatch]

/-- Witness for `c3_collision_latch_transitions` at a concrete moving
line-following state and a concrete latched state. -/
theorem c3_collision_latch_transitions_witness :
    checkCollisions true false
        { initState with mode := .lineFollowing, leftSpeed := 900, rightSpeed := 900 } =
      ({ initState with mode := .stopped, collisionDetected := true,
                        leftSpeed := 0, rightSpeed := 0 }, true) ∧
    checkCollisions false false
        { initState with mode := .stopped, collisionDetected := true } =
      ({ initState with mode := .stopped, collisionDetected := false }, false) :=
  ⟨(c3_collision_latch_transitions true false
      { initState with mode := .lineFollowing, leftSpeed := 900, rightSpeed := 900 }).1
      rfl rfl (by decide) (by decide) (by decide),
   (c3_collision_latch_transitions false false
      { initState with mode := .stopped, collisionDetected := true }).2 rfl⟩

/-- Claim C9: after every `check_collisions` step the latch equals the
sampled disjunction of the two bump sensors; the forced emergency stop
(the `True` return, with motors off and STOPPED mode) happens exactly on
a rising edge taken while the mode is not STOPPED and both wheels move
forward; in every other case the mode and the wheel speeds are
untouched. -/
theorem c9_latch_tracks_bumps :
    ∀ (lb rb : Bool) (s : RobotState),
      (checkCollisions lb rb s).1.collisionDetected = (lb || rb) ∧
      ((checkCollisions lb rb s).2 = true ↔
        (lb || rb) = true ∧ s.collisionDetected = false ∧ s.mode ≠ .stopped ∧
        0 < s.leftSpeed ∧ 0 < s.rightSpeed) ∧
      ((checkCollisions lb rb s).2 = false →
        (checkCollisions lb rb s).1.mode = s.mode ∧
        (checkCollisions lb rb s).1.leftSpeed = s.leftSpeed ∧
        (checkCollisions lb rb s).1.rightSpeed = s.rightSpeed) := by
  intro lb rb s
  by_cases hpress : (lb || rb) = true
  · by_cases hlatch : s.collisionDetected = true
    · simp [checkCollisions, hpress, hlatch]
    · simp only [Bool.not_eq_true] at hlatch
      by_cases hstop : s.mode ≠ .stopped ∧ 0 < s.leftSpeed ∧ 0 < s.rightSpeed
      · simp [checkCollisions, hpress, hlatch, hstop]
      · simp [checkCollisions, hpress, hlatch, hstop]
  · simp only [Bool.not_eq_true] at hpress
    by_cases hlatch : s.collisionDetected = true
    · simp [checkCollisions, hpress, hlatch]
    · simp only [Bool.not_eq_true] at hlatch
      simp [checkCollisions, hpress, hlatch]

/-- Witness for `c9_latch_tracks_bumps` at a concrete rising edge while
stopped: the latch is set, no emergency stop is reported, and the mode
and wheel speeds are untouched. -/
theorem c9_latch_tracks_bumps_witness :
    (checkCollisions false true initState).1.collisionDetected = true ∧
    (checkCollisions false true initState).1.mode = initState.mode ∧
    (checkCollisions false true initState).1.leftSpeed = initState.leftSpeed :=
  ⟨(c9_latch_tracks_bumps false true initState).1,
   ((c9_latch_tracks_bumps false true initState).2.2 (by decide)).1,
   ((c9_latch_tracks_bumps false true initState).2.2 (by decide)).2.1⟩

/-- Claim C2 as stated is false: with reading vector `⟨100, 800, 0, 0, 0⟩`
the code divides the weighted numerator by the sum of all five readings
(900), giving `p = 800000 / 900 - 2000 = -1112`, while the claim's
divisor `v1 + v2 + v3 + v4 = 800` would give `p = -1000`. -/
theorem c2_divisor_counterexample :
    followLine ⟨100, 800, 0, 0, 0⟩ initState ≠
      followLineClaimC2 ⟨100, 800, 0, 0, 0⟩ initState := by
  decide

/-- Claim C2 (amended): when not all three central readings are below
700, one `follow_line` step computes
`l = (1000·v1 + 2000·v2 + 3000·v3 + 4000·v4)` integer-divided by the sum
of all five readings `v0 + v1 + v2 + v3 + v4` (with `l = 2000` when that
divisor is zero), error `e = l - 2000`, derivative `d = e - prevError`,
`pid = 15·e + 300·d`, wheel setpoints `clamp(base ± pid, 0, base)` with
`base` the current speed magnitude, and updates `prevError` to `e`. -/
theorem c2_centroid_divides_by_all_five :
    ∀ (v : Readings) (s : RobotState),
      ¬(v.r1 < 700 ∧ v.r2 < 700 ∧ v.r3 < 700) →
      followLine v s =
        (let t := v.r0 + v.r1 + v.r2 + v.r3 + v.r4
         let l : Nat := if t = 0 then 2000
           else (1000 * v.r1 + 2000 * v.r2 + 3000 * v.r3 + 4000 * v.r4) / t
         let e : Int := (l : Int) - 2000
         let d : Int := e - s.lastP
         let pid : Int := 15 * e + 300 * d
         { s with p := e, lastP := e,
                  leftSpeed := max 0 (min s.currentSpeed (s.currentSpeed + pid)),
                  rightSpeed := max 0 (min s.currentSpeed (s.currentSpeed - pid)) }) := by
  intro v s h
  have ht : ¬(v.r0 + v.r1 + v.r2 + v.r3 + v.r4 = 0) := by omega
  have hl : lineEstimate v s.p =
      (1000 * v.r1 + 2000 * v.r2 + 3000 * v.r3 + 4000 * v.r4) /
        (v.r0 + v.r1 + v.r2 + v.r3 + v.r4) := by
    simp [lineEstimate, h, pyDivNat, ht]
  simp only [followLine, hl, if_neg ht]
  congr 1 <;> first
    | rfl
    | ring_nf

/-- Witness for `c2_centroid_divides_by_all_five` at the reading vector
`⟨100, 800, 0, 0, 0⟩` from the initial state: `p` becomes `-1112` and the
wheels clamp to `(0, 1000)`. -/
theorem c2_centroid_divides_by_all_five_witness :
    followLine ⟨100, 800, 0, 0, 0⟩ initState =
      { mode := .stopped, lineCalibrated := false, currentSpeed := 1000,
        p := -1112, lastP := -1112, collisionDetected := false,
        leftSpeed := 0, rightSpeed := 1000 } :=
  (c2_centroid_divides_by_all_five ⟨100, 800, 0, 0, 0⟩ initState (by decide)).trans
    (by decide)

/-- Claim C8 as stated is false: a line arriving from the serial link
while no central is connected is not cached as the TX read value (the
forwarding and caching both sit behind `if is_connected and ble_service`,
line 164 of `main_pico.py`). -/
theorem c8_disconnected_line_not_cached :
    (checkForRobotResponse (some "STATUS:OK")
        { isConnected := false, connections := [], bleServiceSet := true,
          txValue := "Robot Bridge Ready", lastResponse := "" }).1.txValue ≠
      "Robot: STATUS:OK" := by
  decide

/-- Claim C8 (amended): while a central is connected (and the BLE service
object exists, as it does throughout the main loop), every line produced
by the serial link is forwarded as a notification to every connection in
the connection set, text-prefixed with `"Robot: "`, and cached as the
current on-demand-read value of the read characteristic; while
disconnected it only updates `last_response` and is neither notified nor
cached. -/
theorem c8_connected_line_forwarded_and_cached :
    ∀ (s : PicoState) (resp : String),
      resp ≠ "" → s.isConnected = true → s.bleServiceSet = true →
      checkForRobotResponse (some resp) s =
        ({ s with lastResponse := pyStrip resp,
                  txValue := "Robot: " ++ pyStrip resp },
         s.connections.map (fun c => (c, "Robot: " ++ pyStrip resp)), true) := by
  intro s resp hne hconn hsvc
  simp [checkForRobotResponse, updateTx, hne, hconn, hsvc]

/-- Witness for `c8_connected_line_forwarded_and_cached` at a concrete
connected bridge state with two connections. -/
theorem c8_connected_line_forwarded_and_cached_witness :
    checkForRobotResponse (some "PONG\n")
        { isConnected := true, connections := [7, 9], bleServiceSet := true,
          txValue := "Robot Bridge Ready", lastResponse := "" } =
      ({ isConnected := true, connections := [7, 9], bleServiceSet := true,
         txValue := "Robot: PONG", lastResponse := "PONG" },
       [(7, "Robot: PONG"), (9, "Robot: PONG")], true) :=
  (c8_connected_line_forwarded_and_cached
      { isConnected := true, connections := [7, 9], bleServiceSet := true,
        txValue := "Robot Bridge Ready", lastResponse := "" }
      "PONG\n" (by decide) rfl rfl).trans (by decide)

/-! ### Calibration-flag bookkeeping (claim C4) -/

/-- `cmd_forward` never touches `line_calibrated`. -/
@[simp] lemma cmdForward_lineCalibrated (s : RobotState) :
    (cmdForward s).2.lineCalibrated = s.lineCalibrated := by
  unfold cmdForward
  split <;> rfl

/-- `cmd_backward` never touches `line_calibrated`. -/
@[simp] lemma cmdBackward_lineCalibrated (s : RobotState) :
    (cmdBackward s).2.lineCalibrated = s.lineCalibrated := rfl

/-- `cmd_left` never touches `line_calibrated`. -/
@[simp] lemma cmdLeft_lineCalibrated (s : RobotState) :
    (cmdLeft s).2.lineCalibrated = s.lineCalibrated := rfl

/-- `cmd_right` never touches `line_calibrated`. -/
@[simp] lemma cmdRight_lineCalibrated (s : RobotState) :
    (cmdRight s).2.lineCalibrated = s.lineCalibrated := rfl

/-- `cmd_stop` never touches `line_calibrated`. -/
@[simp] lemma cmdStop_lineCalibrated (s : RobotState) :
    (cmdStop s).2.lineCalibrated = s.lineCalibrated := by
  unfold cmdStop
  dsimp only
  split <;> rfl

/-- `cmd_speed` never touches `line_calibrated`. -/
@[simp] lemma cmdSpeed_lineCalibrated (level : String) (s : RobotState) :
    (cmdSpeed level s).2.lineCalibrated = s.lineCalibrated := by
  unfold cmdSpeed
  split
  · rfl
  · split_ifs <;> rfl

/-- `cmd_status` mutates no state at all. -/
@[simp] lemma cmdStatus_state (env : Env) (s : RobotState) :
    (cmdStatus env s).2 = s := rfl

/-- `cmd_heartbeat` mutates no state at all. -/
@[simp] lemma cmdHeartbeat_state (val : String) (s : RobotState) :
    (cmdHeartbeat val s).2 = s := rfl

/-- If `cmd_line_follow` turns `line_calibrated` from false to true, it
did so through a successful `calibrate_line_sensors` run and returned
that run's success response. -/
lemma cmdLineFollow_sets_calibrated (env : Env) (p : String) (s : RobotState)
    (h0 : s.lineCalibrated = false)
    (h1 : (cmdLineFollow env p s).2.lineCalibrated = true) :
    env.calib = .ok ∧
    (cmdLineFollow env p s).1 = "LINE_SENSORS:CALIBRATED_AND_FOLLOWING" := by
  rcases hc : env.calib with _ | m | m | m <;>
    unfold cmdLineFollow at h1 ⊢ <;>
    simp only [hc, calibrateLineSensors] at h1 ⊢ <;>
    split_ifs at h1 ⊢ <;>
    simp_all

set_option maxHeartbeats 1000000 in
/-- If a dispatched handler turns `line_calibrated` from false to true,
the dispatch ran a successful calibration and returned its success
response. -/
lemma dispatch_sets_calibrated (env : Env) (s : RobotState) (base : String)
    (param : Option String) (r : String) (s' : RobotState)
    (h : dispatch env s base param = .ok (r, s'))
    (h0 : s.lineCalibrated = false) (h1 : s'.lineCalibrated = true) :
    env.calib = .ok ∧ r = "LINE_SENSORS:CALIBRATED_AND_FOLLOWING" := by
  unfold dispatch at h
  split_ifs at h <;>
    rcases param with _ | p <;>
    (try simp only [callNoArg, callOneArg, Option.getD] at h) <;>
    (try exact (Except.noConfusion h)) <;>
    replace h := Except.ok.inj h <;>
    rw [Prod.ext_iff] at h <;>
    (try dsimp only at h) <;>
    obtain ⟨hr, hs⟩ := h <;>
    subst hs <;>
    subst hr
  all_goals try (simp only [cmdForward_lineCalibrated, cmdBackward_lineCalibrated,
    cmdLeft_lineCalibrated, cmdRight_lineCalibrated, cmdStop_lineCalibrated,
    cmdSpeed_lineCalibrated, cmdStatus_state, cmdHeartbeat_state, h0] at h1)
  all_goals try exact absurd h1 Bool.false_ne_true
  · exact cmdLineFollow_sets_calibrated env "" s h0 h1
  · exact cmdLineFollow_sets_calibrated env p s h0 h1

/-- Claim C4: `calibrate_line_sensors`, started from any state, on
success ends calibrated in LINE_FOLLOWING mode with a success response;
on any fault mid-sequence ends uncalibrated in STOPPED mode with a
response carrying the fault description; and no other operation of the
program — no dispatched command, no collision check, no line-following
step — ever turns `line_calibrated` to true. -/
theorem c4_calibration_flag_discipline :
    (∀ s : RobotState,
      calibrateLineSensors .ok s =
        ("LINE_SENSORS:CALIBRATED_AND_FOLLOWING",
         { s with mode := .lineFollowing, lineCalibrated := true,
                  leftSpeed := 0, rightSpeed := 0 })) ∧
    (∀ (s : RobotState) (msg : String) (o : CalibOutcome),
      (o = .fail1 msg ∨ o = .fail2 msg ∨ o = .fail3 msg) →
      (calibrateLineSensors o s).1 = "ERROR:CALIBRATION_FAILED (" ++ msg ++ ")" ∧
      (calibrateLineSensors o s).2.lineCalibrated = false ∧
      (calibrateLineSensors o s).2.mode = .stopped) ∧
    (∀ (env : Env) (s : RobotState) (cmd r : String) (s' : RobotState),
      processCommand env s cmd = .ok (r, s') →
      s.lineCalibrated = false → s'.lineCalibrated = true →
      env.calib = .ok ∧ r = "LINE_SENSORS:CALIBRATED_AND_FOLLOWING") ∧
    (∀ (lb rb : Bool) (s : RobotState),
      (checkCollisions lb rb s).1.lineCalibrated = s.lineCalibrated) ∧
    (∀ (v : Readings) (s : RobotState),
      (followLine v s).lineCalibrated = s.lineCalibrated) := by
  refine ⟨fun s => rfl, ?_, ?_, ?_, fun v s => rfl⟩
  · intro s msg o ho
    rcases ho with h | h | h <;> subst h <;> exact ⟨rfl, rfl, rfl⟩
  · intro env s cmd r s' h h0 h1
    unfold processCommand at h
    split at h
    · exact (Except.noConfusion h)
    · exact dispatch_sets_calibrated env s _ _ r s' h h0 h1
  · intro lb rb s
    unfold checkCollisions
    dsimp only
    split_ifs <;> rfl

/-- Witness for `c4_calibration_flag_discipline`: the failure clause at a
concrete mid-sequence fault and the only-path clause at the concrete
command `"LINE CALIBRATE"` from the initial state. -/
theorem c4_calibration_flag_discipline_witness :
    ((calibrateLineSensors (.fail2 "sensor stuck") initState).1 =
        "ERROR:CALIBRATION_FAILED (" ++ "sensor stuck" ++ ")" ∧
      (calibrateLineSensors (.fail2 "sensor stuck") initState).2.lineCalibrated = false ∧
      (calibrateLineSensors (.fail2 "sensor stuck") initState).2.mode = .stopped) ∧
    ((⟨90, false, false, .ok⟩ : Env).calib = .ok ∧
      "LINE_SENSORS:CALIBRATED_AND_FOLLOWING" = "LINE_SENSORS:CALIBRATED_AND_FOLLOWING") :=
  ⟨c4_calibration_flag_discipline.2.1 initState "sensor stuck" (.fail2 "sensor stuck")
      (Or.inr (Or.inl rfl)),
   c4_calibration_flag_discipline.2.2.1 ⟨90, false, false, .ok⟩ initState
      "LINE CALIBRATE" "LINE_SENSORS:CALIBRATED_AND_FOLLOWING"
      (bootState .ok) rfl rfl (by decide)⟩

/-! ### Frame reassembly lemmas (claims C5 and C1) -/

/-- `joinHead` never returns the empty list. -/
lemma joinHead_ne_nil (x : List Char) (l : List (List Char)) :
    joinHead x l ≠ [] := by
  cases l <;> simp [joinHead]

/-- A split always has at least one fragment. -/
lemma pySplitNl_ne_nil (l : List Char) : pySplitNl l ≠ [] := by
  cases l with
  | nil => simp [pySplitNl]
  | cons c t =>
    rw [pySplitNl]
    split
    · simp
    · exact joinHead_ne_nil _ _

/-- No fragment of a split contains a newline. -/
lemma pySplitNl_no_newline (l : List Char) :
    ∀ x ∈ pySplitNl l, '\n' ∉ x := by
  induction l with
  | nil =>
    intro x hx
    simp [pySplitNl] at hx
    subst hx
    simp
  | cons c t ih =>
    intro x hx
    by_cases hc : c = '\n'
    · rw [pySplitNl, if_pos hc] at hx
      rcases List.mem_cons.mp hx with h | h
      · subst h; simp
      · exact ih x h
    · rw [pySplitNl, if_neg hc] at hx
      rcases ht : pySplitNl t with _ | ⟨y, ys⟩
      · exact absurd ht (pySplitNl_ne_nil t)
      · rw [ht] at hx
        rcases List.mem_cons.mp (by simpa [joinHead] using hx) with h | h
        · subst h
          intro hmem
          rcases List.mem_cons.mp hmem with h' | h'
          · exact hc h'.symm
          · exact ih y (by rw [ht]; exact List.mem_cons_self _ _) h'
        · exact ih x (by rw [ht]; exact List.mem_cons_of_mem _ h)

/-- Splitting a newline-free string returns the string whole. -/
lemma pySplitNl_of_no_newline (l : List Char) (h : '\n' ∉ l) :
    pySplitNl l = [l] := by
  induction l with
  | nil => rfl
  | cons c t ih =>
    have hc : ¬(c = '\n') := fun hc => h (by rw [hc]; exact List.mem_cons_self _ _)
    have ht : '\n' ∉ t := fun hm => h (List.mem_cons_of_mem _ hm)
    rw [pySplitNl, if_neg hc, ih ht]
    simp [joinHead]

/-- Two successive head-joins collapse into one. -/
lemma joinHead_joinHead (a b : List Char) (l : List (List Char)) :
    joinHead a (joinHead b l) = joinHead (a ++ b) l := by
  cases l <;> simp [joinHead]

/-- `getLastD` of an append with non-empty right part ignores the left
part. -/
lemma getLastD_append_cons (X : List (List Char)) (y : List Char)
    (ys : List (List Char)) (d : List Char) :
    (X ++ y :: ys).getLastD d = (y :: ys).getLastD d := by
  induction X generalizing d with
  | nil => rfl
  | cons a X ih =>
    rw [List.cons_append, List.getLastD_cons, ih, List.getLastD_cons,
      List.getLastD_cons]

/-- The defaulted last element of a non-empty list is an element. -/
lemma getLastD_mem : ∀ (l : List (List Char)) (d : List Char), l ≠ [] →
    l.getLastD d ∈ l
  | [], _, h => absurd rfl h
  | [x], _, _ => by simp
  | x :: y :: ys, d, _ => by
    rw [List.getLastD_cons]
    exact List.mem_cons_of_mem _ (getLastD_mem (y :: ys) x (by simp))

/-- How a split continues across an append boundary: the complete
fragments of `a` survive, the open last fragment of `a` is glued onto
the first fragment of the split of `b`. -/
lemma pySplitNl_append (a b : List Char) :
    pySplitNl (a ++ b) =
      (pySplitNl a).dropLast ++
        joinHead ((pySplitNl a).getLastD []) (pySplitNl b) := by
  induction a with
  | nil =>
    rcases hb : pySplitNl b with _ | ⟨z, zs⟩
    · exact absurd hb (pySplitNl_ne_nil b)
    · simp [pySplitNl, joinHead, hb]
  | cons c t ih =>
    by_cases hc : c = '\n'
    · rcases ht : pySplitNl t with _ | ⟨y, ys⟩
      · exact absurd ht (pySplitNl_ne_nil t)
      · rw [List.cons_append, pySplitNl, if_pos hc, ih, ht, pySplitNl,
          if_pos hc, ht]
        simp [List.getLastD_cons]
    · rcases ht : pySplitNl t with _ | ⟨y, ys⟩
      · exact absurd ht (pySplitNl_ne_nil t)
      · rcases hb : pySplitNl b with _ | ⟨z, zs⟩
        · exact absurd hb (pySplitNl_ne_nil b)
        · rw [List.cons_append, pySplitNl, if_neg hc, ih, ht, hb, pySplitNl,
            if_neg hc, ht]
          cases ys with
          | nil => simp [joinHead, joinHead_joinHead]
          | cons y2 ys2 =>
            simp [joinHead, List.getLastD_cons, getLastD_append_cons]

/-- `uartIngest` in closed form: the guarding `if '\n' in rx_buffer` is
immaterial because splitting a newline-free buffer returns it whole. -/
lemma uartIngest_eq (buf data : List Char) :
    uartIngest buf data =
      ((pySplitNl (buf ++ data)).dropLast,
       (pySplitNl (buf ++ data)).getLastD []) := by
  unfold uartIngest
  dsimp only
  split
  · rfl
  · rw [pySplitNl_of_no_newline _ (by assumption)]
    rfl

/-- The buffer kept by an ingest step holds no newline. -/
lemma uartIngest_buf_no_newline (buf data : List Char) :
    '\n' ∉ (uartIngest buf data).2 := by
  rw [uartIngest_eq]
  exact pySplitNl_no_newline _ _ (getLastD_mem _ _ (pySplitNl_ne_nil _))

/-- Every frame emitted by an ingest step has its newline stripped. -/
lemma uartIngest_frames_no_newline (buf data : List Char) :
    ∀ f ∈ (uartIngest buf data).1, '\n' ∉ f := by
  rw [uartIngest_eq]
  intro f hf
  exact pySplitNl_no_newline _ f (List.dropLast_subset _ hf)

/-- Ingesting `d1 ++ d2` at once equals ingesting `d1` then `d2`,
concatenating the emitted frames. -/
lemma uartIngest_compose (buf d1 d2 : List Char) :
    uartIngest buf (d1 ++ d2) =
      ((uartIngest buf d1).1 ++ (uartIngest (uartIngest buf d1).2 d2).1,
       (uartIngest (uartIngest buf d1).2 d2).2) := by
  have hglast : '\n' ∉ (pySplitNl (buf ++ d1)).getLastD [] :=
    pySplitNl_no_newline _ _ (getLastD_mem _ _ (pySplitNl_ne_nil _))
  rcases hb : pySplitNl d2 with _ | ⟨z, zs⟩
  · exact absurd hb (pySplitNl_ne_nil d2)
  have h2 : pySplitNl ((pySplitNl (buf ++ d1)).getLastD [] ++ d2) =
      joinHead ((pySplitNl (buf ++ d1)).getLastD []) (pySplitNl d2) := by
    rw [pySplitNl_append, pySplitNl_of_no_newline _ hglast]
    simp [joinHead]
  have hmain : pySplitNl (buf ++ (d1 ++ d2)) =
      (pySplitNl (buf ++ d1)).dropLast ++
        joinHead ((pySplitNl (buf ++ d1)).getLastD []) (pySplitNl d2) := by
    rw [← List.append_assoc, pySplitNl_append]
  rw [uartIngest_eq buf (d1 ++ d2), uartIngest_eq buf d1,
    uartIngest_eq ((pySplitNl (buf ++ d1)).getLastD []) d2, hmain, h2, hb,
    joinHead]
  rw [List.dropLast_append_cons, getLastD_append_cons]

/-- Ingesting a chunk sequence one chunk at a time equals ingesting the
concatenation at once, for any newline-free starting buffer. -/
lemma ingestAll_eq_single (chunks : List (List Char)) :
    ∀ buf : List Char, '\n' ∉ buf →
      ingestAll buf chunks = uartIngest buf chunks.flatten := by
  induction chunks with
  | nil =>
    intro buf hb
    simp [ingestAll, uartIngest, hb]
  | cons d ds ih =>
    intro buf hb
    calc ingestAll buf (d :: ds)
        = ((uartIngest buf d).1 ++ (ingestAll (uartIngest buf d).2 ds).1,
           (ingestAll (uartIngest buf d).2 ds).2) := rfl
      _ = ((uartIngest buf d).1 ++
             (uartIngest (uartIngest buf d).2 ds.flatten).1,
           (uartIngest (uartIngest buf d).2 ds.flatten).2) := by
            rw [ih _ (uartIngest_buf_no_newline buf d)]
      _ = uartIngest buf (d ++ ds.flatten) := (uartIngest_compose buf d ds.flatten).symm
      _ = uartIngest buf (d :: ds).flatten := by rw [List.flatten_cons]

/-- Claim C5: frame reassembly is fragmentation-invariant — feeding a
byte sequence through the receive buffer split across arbitrarily many
ingest calls yields the same ordered frame sequence and the same trailing
buffered fragment as feeding it in one call; every extracted frame has
its newline stripped, and the trailing fragment never holds a newline. -/
theorem c5_fragmentation_invariance :
    ∀ chunks : List (List Char),
      ingestAll [] chunks = uartIngest [] chunks.flatten ∧
      (∀ f ∈ (ingestAll [] chunks).1, '\n' ∉ f) ∧
      '\n' ∉ (ingestAll [] chunks).2 := by
  intro chunks
  have h := ingestAll_eq_single chunks [] (by simp)
  refine ⟨h, ?_, ?_⟩
  · rw [h]
    exact uartIngest_frames_no_newline _ _
  · rw [h]
    exact uartIngest_buf_no_newline _ _

/-- Witness for `c5_fragmentation_invariance` on a concrete fragmented
transmission. -/
theorem c5_fragmentation_invariance_witness :
    ingestAll [] ["PI".data, "NG\nST".data, "ATUS\n\nLE".data] =
      uartIngest [] (["PI".data, "NG\nST".data, "ATUS\n\nLE".data]).flatten ∧
    '\n' ∉ "PING".data ∧
    '\n' ∉ (ingestAll [] ["PI".data, "NG\nST".data, "ATUS\n\nLE".data]).2 :=
  ⟨(c5_fragmentation_invariance ["PI".data, "NG\nST".data, "ATUS\n\nLE".data]).1,
   (c5_fragmentation_invariance ["PI".data, "NG\nST".data, "ATUS\n\nLE".data]).2.1
     "PING".data (by decide),
   (c5_fragmentation_invariance ["PI".data, "NG\nST".data, "ATUS\n\nLE".data]).2.2⟩

/-- Claim C1 as stated is false: `process_command` has no handler guard,
so dispatching `"STATUS X"` — a parameter passed to the zero-argument
`cmd_status` — raises a `TypeError` out of `process_command` instead of
returning an `ERROR:<description>` response. -/
theorem c1_dispatch_counterexample :
    processCommand ⟨90, false, false, .ok⟩ initState "STATUS X" =
      Except.error
        "TypeError: cmd_status() takes 0 positional arguments but 1 was given" :=
  rfl

/-- Claim C1 (amended): `process_command` does not catch handler faults:
dispatching a command that passes a parameter to a zero-argument handler
(such as `"STATUS X"`) raises out of `process_command`; the fault is
caught one level up, by the `try`/`except` around the main loop's UART
block, which clears `rx_buffer`, sends no response and leaves the robot
state unchanged. -/
theorem c1_handler_faults_escape_to_main_loop :
    (∀ (env : Env) (s : RobotState),
      processCommand env s "STATUS X" =
        Except.error
          "TypeError: cmd_status() takes 0 positional arguments but 1 was given") ∧
    (∀ (env : Env) (s : RobotState) (cmd : List Char) (e : String),
      '\n' ∉ cmd → stripChars cmd ≠ [] →
      processCommand env s (String.mk (stripChars cmd)) = .error e →
      uartStep env s [] (cmd ++ ['\n']) = (s, [], [])) := by
  constructor
  · intro env s
    rfl
  · intro env s cmd e hnl hne h
    have hsplit : pySplitNl (cmd ++ ['\n']) = [cmd, []] := by
      rw [pySplitNl_append, pySplitNl_of_no_newline cmd hnl]
      simp [pySplitNl, joinHead]
    have hing : uartIngest [] (cmd ++ ['\n']) = ([cmd], []) := by
      rw [uartIngest_eq, List.nil_append, hsplit]
      rfl
    unfold uartStep
    rw [hing]
    simp only [runCmds, if_neg hne, h]
    simp

/-- Witness for `c1_handler_faults_escape_to_main_loop`: the frame
`"STATUS X"` arriving on the UART is swallowed by the loop's handler —
buffer cleared, no response, state unchanged. -/
theorem c1_handler_faults_escape_to_main_loop_witness :
    uartStep ⟨90, false, false, .ok⟩ initState [] ("STATUS X".data ++ ['\n']) =
      (initState, [], []) :=
  c1_handler_faults_escape_to_main_loop.2 ⟨90, false, false, .ok⟩ initState
    "STATUS X".data
    "TypeError: cmd_status() takes 0 positional arguments but 1 was given"
    (by decide) (by decide)
    (c1_handler_faults_escape_to_main_loop.1 ⟨90, false, false, .ok⟩ initState)

end BlePololu
